import Mathlib

/-!
Verification development for the transit application's route-composition and
live-vehicle-position subsystem (`project/app/services/live_service.py`,
`project/app/services/routing_service.py`, and the duplicated logic in
`project/app/main.py`).

The Python code is shallowly embedded:

* `datetime` values become `PyDatetime`: a wall-clock value in seconds (a
  rational) together with an optional UTC offset (`none` models a naive
  datetime, `some off` an aware one).  `replace(tzinfo=t)` keeps the wall
  value and changes only the offset, exactly as in Python, so normalizing
  timezone-awareness genuinely changes the instant being denoted.
* numbers read from the document store (`avgStopSec`) become `Option ℚ`;
  Python's `int(...)` truncation toward zero becomes `pyInt`.
* the unbounded `while True` catch-up loop becomes a fuel-indexed function
  returning `Option`; `none` means the loop has not returned within the
  given fuel.  All statements about the loop are made for every fuel, or
  existentially over fuel for termination statements.
* the Mongo store calls of `calculate_positions` are abstracted into
  explicit arguments (the fetched itinerary, the coordinate map, the
  metadata map, the assignment map and the vehicle collection), and the
  single write side effect (`update_vehicle_simulation`) is logged into the
  returned `writes` list.
-/

/-- Model of a Python `datetime`: a wall-clock reading in seconds together
with an optional UTC offset in seconds (`none` = naive, `some off` = aware,
mirroring `tzinfo`). -/
structure PyDatetime where
  wall : ℚ
  tz : Option ℚ
deriving DecidableEq, Repr

/-- Model of `d.replace(tzinfo=t)`: the wall-clock fields are kept, only the
timezone annotation changes (so the denoted absolute instant changes). -/
def PyDatetime.replaceTz (d : PyDatetime) (t : Option ℚ) : PyDatetime :=
  ⟨d.wall, t⟩

/-- Absolute instant denoted by a datetime: wall clock minus UTC offset
(naive datetimes are read at offset 0, which is only used to compare values
of equal awareness, as the embedded code does). -/
def PyDatetime.abs (d : PyDatetime) : ℚ :=
  d.wall - d.tz.getD 0

/-- Model of `(a - b).total_seconds()` for two datetimes of matching
awareness (the embedded code subtracts only after normalization). -/
def pySub (a b : PyDatetime) : ℚ :=
  a.abs - b.abs

/-- Model of `d + timedelta(seconds=s)`. -/
def PyDatetime.addSeconds (d : PyDatetime) (s : ℚ) : PyDatetime :=
  ⟨d.wall + s, d.tz⟩

/-- Model of Python `int(q)`: truncation toward zero.  On a rational in
lowest terms with positive denominator this is truncating division of the
numerator by the denominator. -/
def pyInt (q : ℚ) : Int :=
  q.num.tdiv q.den

/-- One itinerary entry as stored in the line document: a stop id and the
optional `avgStopSec` field. -/
structure ItinEntry where
  stop_id : String
  avgStopSec : Option ℚ
deriving DecidableEq, Repr

/-- Default entry used to totalize the (always in-bounds) list indexing of
the Python code. -/
def dfltEntry : ItinEntry := ⟨"", none⟩

/-- Effective travel seconds of an entry:
`int(itinerary[idx].get("avgStopSec") or 300)` — a missing or zero value
(both falsy) defaults to 300, any other value is truncated by `int`. -/
def travel_seconds (e : ItinEntry) : Int :=
  match e.avgStopSec with
  | none => 300
  | some q => if q = 0 then 300 else pyInt q

/-- Timezone normalization block of `_advance_segment`
(`live_service.py` lines 20-24): a naive operand adopts the other operand's
timezone annotation via `replace`. -/
def normalizeTz (segment_start now : PyDatetime) : PyDatetime × PyDatetime :=
  match segment_start.tz, now.tz with
  | none, some t => (segment_start.replaceTz (some t), now)
  | some t, none => (segment_start, now.replaceTz (some t))
  | _, _ => (segment_start, now)

/-- Fuel-indexed embedding of the `while True` catch-up loop of
`_advance_segment` (`live_service.py` lines 29-43).  `none` means the loop
did not return within `fuel` iterations. -/
def advanceLoop (it : List ItinEntry) :
    Nat → Int → PyDatetime → PyDatetime → Option (Int × PyDatetime × ℚ × Int)
  | 0, _, _, _ => none
  | fuel + 1, idx, segment_start, now =>
    let travel_s := travel_seconds (it.getD idx.toNat dfltEntry)
    let elapsed := pySub now segment_start
    if elapsed < (travel_s : ℚ) then
      some (idx, segment_start, elapsed, travel_s)
    else
      let segment_start2 := segment_start.addSeconds (travel_s : ℚ)
      let idx2 := idx + 1
      let idx3 := if idx2 ≥ (it.length : Int) - 1 then 0 else idx2
      advanceLoop it fuel idx3 segment_start2 now

/-- Embedding of `_advance_segment` from
`project/app/services/live_service.py` (lines 13-43): guard for a short
itinerary, cold-start default of `segment_start`, timezone normalization,
index clamping, then the catch-up loop. -/
def advance_segment (it : List ItinEntry) (idx : Int)
    (segment_start : Option PyDatetime) (now : PyDatetime) (fuel : Nat) :
    Option (Int × PyDatetime × ℚ × Int) :=
  if it.length < 2 then some (0, now, 0, 0)
  else
    let start := segment_start.getD now
    let p := normalizeTz start now
    let idx2 := max 0 (min idx ((it.length : Int) - 2))
    advanceLoop it fuel idx2 p.1 p.2

/-- Ghost-instrumented variant of the catch-up loop: identical control flow
to `advanceLoop`, additionally counting how many times the wrap-to-0 branch
(`if idx >= len(itinerary) - 1: idx = 0`) was taken.  Used to state the
"non-decreasing modulo the wrap" property. -/
def advanceLoopW (it : List ItinEntry) :
    Nat → Int → PyDatetime → PyDatetime →
    Option ((Int × PyDatetime × ℚ × Int) × Nat)
  | 0, _, _, _ => none
  | fuel + 1, idx, segment_start, now =>
    let travel_s := travel_seconds (it.getD idx.toNat dfltEntry)
    let elapsed := pySub now segment_start
    if elapsed < (travel_s : ℚ) then
      some ((idx, segment_start, elapsed, travel_s), 0)
    else
      let segment_start2 := segment_start.addSeconds (travel_s : ℚ)
      let idx2 := idx + 1
      if idx2 ≥ (it.length : Int) - 1 then
        match advanceLoopW it fuel 0 segment_start2 now with
        | none => none
        | some (r, w) => some (r, w + 1)
      else
        match advanceLoopW it fuel idx2 segment_start2 now with
        | none => none
        | some (r, w) => some (r, w)

/-- Ghost-instrumented variant of `advance_segment` (same guard, defaulting,
normalization and clamp), returning in addition the number of wrap events of
the catch-up loop. -/
def advance_segmentW (it : List ItinEntry) (idx : Int)
    (segment_start : Option PyDatetime) (now : PyDatetime) (fuel : Nat) :
    Option ((Int × PyDatetime × ℚ × Int) × Nat) :=
  if it.length < 2 then some ((0, now, 0, 0), 0)
  else
    let start := segment_start.getD now
    let p := normalizeTz start now
    let idx2 := max 0 (min idx ((it.length : Int) - 2))
    advanceLoopW it fuel idx2 p.1 p.2

/-- Timezone normalization block of the `_advance_segment` copy in
`project/app/main.py` (lines 1021-1026).  There the normalization is guarded
by `isinstance(segment_start, datetime) and isinstance(now, datetime)`; in
this typed embedding both arguments are datetimes, so the guard is the
constant true and only the inner `if`/`elif` remains. -/
def mainNormalizeTz (segment_start now : PyDatetime) : PyDatetime × PyDatetime :=
  match segment_start.tz, now.tz with
  | none, some t => (segment_start.replaceTz (some t), now)
  | some t, none => (segment_start, now.replaceTz (some t))
  | _, _ => (segment_start, now)

/-- Fuel-indexed embedding of the `while True` loop of the `_advance_segment`
copy in `project/app/main.py` (lines 1030-1041). -/
def mainAdvanceLoop (it : List ItinEntry) :
    Nat → Int → PyDatetime → PyDatetime → Option (Int × PyDatetime × ℚ × Int)
  | 0, _, _, _ => none
  | fuel + 1, idx, segment_start, now =>
    let travel_s := travel_seconds (it.getD idx.toNat dfltEntry)
    let elapsed := pySub now segment_start
    if elapsed < (travel_s : ℚ) then
      some (idx, segment_start, elapsed, travel_s)
    else
      let segment_start2 := segment_start.addSeconds (travel_s : ℚ)
      let idx2 := idx + 1
      let idx3 := if idx2 ≥ (it.length : Int) - 1 then 0 else idx2
      mainAdvanceLoop it fuel idx3 segment_start2 now

/-- Embedding of the `_advance_segment` copy in `project/app/main.py`
(lines 1014-1041): short-itinerary guard, cold-start default, the
isinstance-guarded timezone normalization, index clamping, catch-up loop. -/
def main_advance_segment (it : List ItinEntry) (idx : Int)
    (segment_start : Option PyDatetime) (now : PyDatetime) (fuel : Nat) :
    Option (Int × PyDatetime × ℚ × Int) :=
  if it.length < 2 then some (0, now, 0, 0)
  else
    let start := segment_start.getD now
    let p := mainNormalizeTz start now
    let idx2 := max 0 (min idx ((it.length : Int) - 2))
    mainAdvanceLoop it fuel idx2 p.1 p.2

/-- Active-assignment row for one vehicle
(`oracle_ops.get_active_assignments`). -/
structure AssignInfo where
  assignment_id : String
  driver_id : String
deriving DecidableEq, Repr

/-- Persisted vehicle simulation state (`sim` sub-document): both fields may
be absent. -/
structure SimState where
  idx : Option Int
  segment_start_ts : Option PyDatetime
deriving DecidableEq, Repr

/-- Vehicle document from the Mongo `vehicles` collection, restricted to the
fields `calculate_positions` reads. -/
structure Vehicle where
  id : String
  line : String
  plate : Option String
  model : Option String
  capacity : Option Int
  sim : Option SimState
deriving DecidableEq, Repr

/-- Embedding of `mongo_vehicles.get_vehicles_by_ids` (lines 38-43): the
query always filters on `line`; the `_id $in` filter is added only when the
id list is non-empty, so an empty id list selects every vehicle document of
the line. -/
def get_vehicles_by_ids (db : List Vehicle) (vehicle_ids : List String)
    (line_id : String) : List Vehicle :=
  if vehicle_ids.isEmpty then
    db.filter (fun v => v.line == line_id)
  else
    db.filter (fun v => v.line == line_id && vehicle_ids.contains v.id)

/-- Stop metadata entry from `get_stops_metadata` (the `meta_map` values). -/
structure StopMeta where
  stop_id : String
  code : Option String
  name : Option String
deriving DecidableEq, Repr

/-- Embedding of `_interpolate` (`live_service.py` lines 8-11): linear
interpolation of a (lon, lat) pair. -/
def interpolate (a b : ℚ × ℚ) (t : ℚ) : ℚ × ℚ :=
  (a.1 + (b.1 - a.1) * t, a.2 + (b.2 - a.2) * t)

/-- Embedding of the progress/location block of `calculate_positions`
(`live_service.py` lines 79-85); the identical block appears in
`_simulate_vehicle_position` in `main.py` (lines 1079-1087).  `progress`
starts at 0 and is recomputed as `max(0, min(1, elapsed / travel_s))` only
when both endpoint stops have coordinates and `travel_s > 0`; the
interpolated location is produced only in that same case. -/
def compute_progress (fromC toC : Option (ℚ × ℚ)) (elapsed : ℚ)
    (travel_s : Int) : ℚ × Option (ℚ × ℚ) :=
  match fromC, toC with
  | some a, some b =>
    if 0 < travel_s then
      let progress := max 0 (min 1 (elapsed / (travel_s : ℚ)))
      (progress, some (interpolate a b progress))
    else (0, none)
  | _, _ => (0, none)

/-- Record of one `update_vehicle_simulation` call (`mongo_vehicles.py`
lines 45-58): the new checkpoint, the optional location, and the timestamp
used for `lastKnown`. -/
structure SimWrite where
  vehicle_id : String
  idx : Int
  segment_start_ts : PyDatetime
  loc : Option (ℚ × ℚ)
  ts : PyDatetime
deriving DecidableEq, Repr

/-- Vehicle snapshot payload built by the loop body of
`calculate_positions` (`live_service.py` lines 98-115). -/
structure VehiclePayload where
  vehicle_id : String
  plate : Option String
  model : Option String
  capacity : Option Int
  line_id : String
  lastKnown : Option (PyDatetime × (ℚ × ℚ))
  departed_stop : Option StopMeta
  next_stop : Option StopMeta
  eta_to_next_stop_s : Int
  status : String
  assignment_id : Option String
  driver_id : Option String
deriving DecidableEq, Repr

/-- Embedding of one iteration of the vehicle loop of `calculate_positions`
(`live_service.py` lines 67-115): read the persisted checkpoint (defaults:
idx 0, segment start `now`), advance, compute progress and location, log the
`update_vehicle_simulation` write, and build the payload.  `none` means the
catch-up loop did not return within the fuel. -/
def simulate_one (itinerary : List ItinEntry)
    (coords_map : List (String × (ℚ × ℚ))) (meta_map : List (String × StopMeta))
    (assignment_map : List (String × AssignInfo)) (line_id : String)
    (now : PyDatetime) (fuel : Nat) (v : Vehicle) :
    Option (VehiclePayload × SimWrite) :=
  let sim := v.sim.getD ⟨none, none⟩
  let idx : Int := sim.idx.getD 0
  let seg_start : PyDatetime := sim.segment_start_ts.getD now
  match advance_segment itinerary idx (some seg_start) now fuel with
  | none => none
  | some (new_idx, new_seg_start, elapsed, travel_s) =>
    let from_stop := (itinerary.getD new_idx.toNat dfltEntry).stop_id
    let to_stop := (itinerary.getD (new_idx + 1).toNat dfltEntry).stop_id
    let pr := compute_progress (coords_map.lookup from_stop)
      (coords_map.lookup to_stop) elapsed travel_s
    let loc_obj := pr.2
    let write : SimWrite := ⟨v.id, new_idx, new_seg_start, loc_obj, now⟩
    let remaining_s : Int := max (pyInt ((travel_s : ℚ) - elapsed)) 0
    let assign_info := assignment_map.lookup v.id
    let payload : VehiclePayload :=
      { vehicle_id := v.id
        plate := v.plate
        model := v.model
        capacity := v.capacity
        line_id := line_id
        lastKnown := loc_obj.map (fun l => (now, l))
        departed_stop := meta_map.lookup from_stop
        next_stop := meta_map.lookup to_stop
        eta_to_next_stop_s := remaining_s
        status := if assign_info.isSome then "active" else "inactive"
        assignment_id := assign_info.map AssignInfo.assignment_id
        driver_id := assign_info.map AssignInfo.driver_id }
    some (payload, write)

/-- Runs `simulate_one` over the fetched vehicle list in order, collecting
payloads and checkpoint writes. -/
def simulate_all (itinerary : List ItinEntry)
    (coords_map : List (String × (ℚ × ℚ))) (meta_map : List (String × StopMeta))
    (assignment_map : List (String × AssignInfo)) (line_id : String)
    (now : PyDatetime) (fuel : Nat) :
    List Vehicle → Option (List VehiclePayload × List SimWrite)
  | [] => some ([], [])
  | v :: vs =>
    match simulate_one itinerary coords_map meta_map assignment_map line_id
      now fuel v with
    | none => none
    | some (p, w) =>
      match simulate_all itinerary coords_map meta_map assignment_map line_id
        now fuel vs with
      | none => none
      | some (ps, ws) => some (p :: ps, w :: ws)

/-- Result dictionary of a successful `calculate_positions` call, with the
ghost `writes` log of its `update_vehicle_simulation` calls. -/
structure LiveResult where
  line_id : String
  ts : PyDatetime
  vehicles : List VehiclePayload
  note : Option String
  writes : List SimWrite
deriving DecidableEq, Repr

/-- Either the error dictionary or the success dictionary returned by
`calculate_positions`. -/
inductive LiveOutcome where
  | error (msg : String)
  | ok (r : LiveResult)
deriving DecidableEq, Repr

/-- Embedding of `calculate_positions` (`live_service.py` lines 45-121).
The store reads are abstracted into arguments: `itinerary` is the sorted
itinerary fetched for `line_id`, `coords_map`/`meta_map` the stop data,
`assignment_map` the active-assignment map, `vehicles_db` the Mongo
`vehicles` collection, and `now` the ambient clock
(`datetime.now(timezone.utc)`).  Returns the error dictionary when the
itinerary is missing or shorter than 2, otherwise fetches vehicles via
`get_vehicles_by_ids` (note: with an empty active set this selects every
vehicle of the line), sets the note exactly when the active set is empty,
and simulates each fetched vehicle. -/
def calculate_positions (itinerary : List ItinEntry)
    (coords_map : List (String × (ℚ × ℚ))) (meta_map : List (String × StopMeta))
    (assignment_map : List (String × AssignInfo)) (vehicles_db : List Vehicle)
    (line_id : String) (now : PyDatetime) (fuel : Nat) : Option LiveOutcome :=
  if itinerary.length < 2 then
    some (LiveOutcome.error "Itinerary missing or too short")
  else
    let active_vehicle_ids := assignment_map.map Prod.fst
    let vehicles := get_vehicles_by_ids vehicles_db active_vehicle_ids line_id
    let note : Option String :=
      if active_vehicle_ids.isEmpty then some "No active driver assignments now"
      else none
    match simulate_all itinerary coords_map meta_map assignment_map line_id
      now fuel vehicles with
    | none => none
    | some (ps, ws) => some (LiveOutcome.ok ⟨line_id, now, ps, note, ws⟩)

/-- Node of a Neo4j path (a `Stop` node), restricted to the properties the
route builders read. -/
structure PathNode where
  stop_id : Option String
  code : Option String
  name : Option String
deriving DecidableEq, Repr

/-- Relationship of a Neo4j path: its type (`"NEXT"` or `"TRANSFER"`) and
the optional properties the route builders read. -/
structure PathRel where
  rel_type : String
  line_id : Option String
  avg_travel_s : Option Int
  walk_s : Option Int
deriving DecidableEq, Repr

/-- Default node used to totalize the indexing `nodes[i]`, `nodes[i+1]`. -/
def dfltNode : PathNode := ⟨none, none, none⟩

/-- Default relationship used to totalize the indexing `rels[i]`. -/
def dfltRel : PathRel := ⟨"", none, none, none⟩

/-- Route segment as built by the two route implementations (before the
later enrichment steps, which never touch `line_id`). -/
structure Segment where
  rel_type : String
  line_id : Option String
  from_stop : PathNode
  to_stop : PathNode
  avg_travel_s : Int
  walk_s : Int
  cost_s : Int
deriving DecidableEq, Repr

/-- Default segment used to totalize list indexing in statements. -/
def dfltSegment : Segment := ⟨"", none, dfltNode, dfltNode, 0, 0, 0⟩

/-- Segment construction of `find_best_route`
(`routing_service.py` lines 37-56): travel and walk default to 0 via `or 0`,
and the stored display label is `"WALK" if rel.type == "TRANSFER" else
line_id` — the literal `"WALK"`, independent of the walk time. -/
def rs_build_segment (from_n to_n : PathNode) (rel : PathRel) : Segment :=
  let avg_travel := rel.avg_travel_s.getD 0
  let walk_time := rel.walk_s.getD 0
  { rel_type := rel.rel_type
    line_id := if rel.rel_type = "TRANSFER" then some "WALK" else rel.line_id
    from_stop := from_n
    to_stop := to_n
    avg_travel_s := avg_travel
    walk_s := walk_time
    cost_s := avg_travel + walk_time }

/-- Segment construction of `get_route` in `project/app/main.py`
(lines 613-663): properties default to 0 via `rel.get(key, 0)`, and the
label is overwritten with the literal `"WALK TO TRANSFER"` exactly when the
edge is a TRANSFER and its walk time is truthy (non-missing and nonzero). -/
def main_build_segment (from_n to_n : PathNode) (rel : PathRel) : Segment :=
  let avg_travel_s := rel.avg_travel_s.getD 0
  let walk_s := rel.walk_s.getD 0
  let cost := avg_travel_s + walk_s
  let line_id :=
    if walk_s ≠ 0 ∧ rel.rel_type = "TRANSFER" then some "WALK TO TRANSFER"
    else rel.line_id
  { rel_type := rel.rel_type
    line_id := line_id
    from_stop := from_n
    to_stop := to_n
    avg_travel_s := avg_travel_s
    walk_s := walk_s
    cost_s := cost }

/-- Segment list built by `find_best_route` over the selected path:
`for i, rel in enumerate(rels)` with endpoints `nodes[i]`, `nodes[i+1]`. -/
def find_best_route_segments (nodes : List PathNode) (rels : List PathRel) :
    List Segment :=
  (List.range rels.length).map (fun i =>
    rs_build_segment (nodes.getD i dfltNode) (nodes.getD (i + 1) dfltNode)
      (rels.getD i dfltRel))

/-- Segment list built by `get_route` in `main.py` over the selected path. -/
def get_route_segments (nodes : List PathNode) (rels : List PathRel) :
    List Segment :=
  (List.range rels.length).map (fun i =>
    main_build_segment (nodes.getD i dfltNode) (nodes.getD (i + 1) dfltNode)
      (rels.getD i dfltRel))

/-- Embedding of `calculate_distance_km` (`routing_service.py` lines 6-10):
0.0 when any coordinate component is `None`, otherwise the Haversine
formula with Earth radius 6371 km after degree-to-radian conversion.  The
copy `calculate_distance` in `main.py` (lines 220-231) computes the same
expression.  Floats are modelled as real numbers. -/
noncomputable def calculate_distance_km
    (lat1 lon1 lat2 lon2 : Option ℝ) : ℝ :=
  match lat1, lon1, lat2, lon2 with
  | some lat1, some lon1, some lat2, some lon2 =>
    let rlat1 := lat1 * (Real.pi / 180)
    let rlon1 := lon1 * (Real.pi / 180)
    let rlat2 := lat2 * (Real.pi / 180)
    let rlon2 := lon2 * (Real.pi / 180)
    let a := Real.sin ((rlat2 - rlat1) / 2) ^ 2 +
      Real.cos rlat1 * Real.cos rlat2 * Real.sin ((rlon2 - rlon1) / 2) ^ 2
    6371 * 2 * Real.arcsin (Real.sqrt a)
  | _, _, _, _ => 0

/-- Decidable rendering of the C7 precondition on one itinerary entry: the
`avgStopSec` value is absent, zero, or an integer at least 1. -/
def good_avg (e : ItinEntry) : Bool :=
  match e.avgStopSec with
  | none => true
  | some q => q == 0 || (q.den == 1 && decide (1 ≤ q.num))

/-- Projection of a `calculate_positions` outcome to (number of returned
vehicle snapshots, number of checkpoint writes, whether the note is set). -/
def live_summary (o : Option LiveOutcome) : Option (Nat × Nat × Bool) :=
  match o with
  | some (LiveOutcome.ok r) =>
    some (r.vehicles.length, r.writes.length, r.note.isSome)
  | _ => none

/-- Projecting away the ghost wrap counter recovers the plain loop. -/
lemma advanceLoopW_fst (it : List ItinEntry) :
    ∀ fuel idx (s n : PyDatetime),
      (advanceLoopW it fuel idx s n).map Prod.fst = advanceLoop it fuel idx s n := by
  intro fuel
  induction fuel with
  | zero => intro idx s n; simp [advanceLoopW, advanceLoop]
  | succ fuel ih =>
    intro idx s n
    simp only [advanceLoopW, advanceLoop]
    split
    · rfl
    · split
      · rw [← ih]
        cases advanceLoopW it fuel 0 (s.addSeconds _) n with
        | none => rfl
        | some rw => rfl
      · rw [← ih]
        cases advanceLoopW it fuel (idx + 1) (s.addSeconds _) n with
        | none => rfl
        | some rw => rfl

/-- The catch-up loop keeps the index inside `[0, len - 2]`: it is entered
with a clamped index, increments step past `len - 2` wrap to 0, and all
other increments stay at most `len - 2`. -/
lemma advanceLoop_bound (it : List ItinEntry) (hlen : 2 ≤ it.length) :
    ∀ fuel idx (s n : PyDatetime) i' s' e' t',
      0 ≤ idx → idx ≤ (it.length : Int) - 2 →
      advanceLoop it fuel idx s n = some (i', s', e', t') →
      0 ≤ i' ∧ i' ≤ (it.length : Int) - 2 := by
  have hlen2 : (2 : Int) ≤ (it.length : Int) := by exact_mod_cast hlen
  intro fuel
  induction fuel with
  | zero => intro idx s n i' s' e' t' _ _ h; simp [advanceLoop] at h
  | succ fuel ih =>
    intro idx s n i' s' e' t' h0 h2 h
    simp only [advanceLoop] at h
    split at h
    · simp only [Option.some.injEq, Prod.mk.injEq] at h
      obtain ⟨rfl, rfl, rfl, rfl⟩ := h
      exact ⟨h0, h2⟩
    · by_cases hw : idx + 1 ≥ (it.length : Int) - 1
      · rw [if_pos hw] at h
        exact ih 0 _ n i' s' e' t' le_rfl (by omega) h
      · rw [if_neg hw] at h
        exact ih (idx + 1) _ n i' s' e' t' (by omega) (by omega) h

/-- Exit characterization of the catch-up loop: on return, `travel_s` is the
effective travel time of the returned index, `elapsed` is the time since the
returned segment start, `elapsed < travel_s`, and the returned segment start
carries the timezone annotation of the loop's initial segment start (the
loop only ever adds seconds). -/
lemma advanceLoop_exit (it : List ItinEntry) :
    ∀ fuel idx (s n : PyDatetime) i' s' e' t',
      advanceLoop it fuel idx s n = some (i', s', e', t') →
      t' = travel_seconds (it.getD i'.toNat dfltEntry) ∧
      e' = pySub n s' ∧ e' < (t' : ℚ) ∧ s'.tz = s.tz := by
  intro fuel
  induction fuel with
  | zero => intro idx s n i' s' e' t' h; simp [advanceLoop] at h
  | succ fuel ih =>
    intro idx s n i' s' e' t' h
    simp only [advanceLoop] at h
    split at h
    · simp only [Option.some.injEq, Prod.mk.injEq] at h
      obtain ⟨rfl, rfl, rfl, rfl⟩ := h
      exact ⟨rfl, rfl, by assumption, rfl⟩
    · obtain ⟨h1, h2, h3, h4⟩ := ih _ _ n i' s' e' t' h
      exact ⟨h1, h2, h3, h4⟩

/-- When every effective travel time of the itinerary is nonnegative, the
catch-up loop never moves the segment start backwards in time. -/
lemma advanceLoop_start_mono (it : List ItinEntry)
    (hpos : ∀ e ∈ it, 0 ≤ travel_seconds e) :
    ∀ fuel idx (s n : PyDatetime) i' s' e' t',
      advanceLoop it fuel idx s n = some (i', s', e', t') →
      s.abs ≤ s'.abs := by
  have htrav : ∀ k : Nat, 0 ≤ travel_seconds (it.getD k dfltEntry) := by
    intro k
    by_cases hk : k < it.length
    · exact hpos _ (List.getD_eq_getElem it dfltEntry hk ▸ it.getElem_mem hk)
    · rw [List.getD_eq_default it dfltEntry (le_of_not_lt hk)]
      norm_num [dfltEntry, travel_seconds]
  intro fuel
  induction fuel with
  | zero => intro idx s n i' s' e' t' h; simp [advanceLoop] at h
  | succ fuel ih =>
    intro idx s n i' s' e' t' h
    simp only [advanceLoop] at h
    split at h
    · simp only [Option.some.injEq, Prod.mk.injEq] at h
      obtain ⟨rfl, rfl, rfl, rfl⟩ := h
      exact le_rfl
    · refine le_trans ?_ (ih _ _ n i' s' e' t' h)
      have := htrav idx.toNat
      simp only [PyDatetime.addSeconds, PyDatetime.abs]
      have : (0 : ℚ) ≤ (travel_seconds (it.getD idx.toNat dfltEntry) : ℚ) := by
        exact_mod_cast this
      linarith

/-- If the instrumented loop reports zero wrap events, the returned index is
at least the initial index (the only decreasing step is the wrap). -/
lemma advanceLoopW_nowrap_mono (it : List ItinEntry) :
    ∀ fuel idx (s n : PyDatetime) r,
      advanceLoopW it fuel idx s n = some (r, 0) →
      idx ≤ r.1 := by
  intro fuel
  induction fuel with
  | zero => intro idx s n r h; simp [advanceLoopW] at h
  | succ fuel ih =>
    intro idx s n r h
    simp only [advanceLoopW] at h
    split at h
    · simp only [Option.some.injEq, Prod.mk.injEq] at h
      obtain ⟨rfl, -⟩ := h
      exact le_rfl
    · split at h
      · cases hrec : advanceLoopW it fuel 0 _ n with
        | none => rw [hrec] at h; simp at h
        | some rw' =>
          obtain ⟨r', w'⟩ := rw'
          rw [hrec] at h
          simp only [Option.some.injEq, Prod.mk.injEq] at h
          obtain ⟨-, hw⟩ := h
          exact absurd hw (by omega)
      · cases hrec : advanceLoopW it fuel (idx + 1) _ n with
        | none => rw [hrec] at h; simp at h
        | some rw' =>
          obtain ⟨r', w'⟩ := rw'
          rw [hrec] at h
          simp only [Option.some.injEq, Prod.mk.injEq] at h
          obtain ⟨rfl, rfl⟩ := h
          have := ih (idx + 1) _ n r' hrec
          omega

/-- The pair `(idx, segment_start)` returned by `_advance_segment` on an
itinerary with at least 2 entries has its index in `[0, len - 2]`. -/
lemma advance_segment_idx_bound (it : List ItinEntry) (hlen : 2 ≤ it.length)
    (idx : Int) (s? : Option PyDatetime) (now : PyDatetime) (fuel : Nat)
    (i' : Int) (s' : PyDatetime) (e' : ℚ) (t' : Int)
    (h : advance_segment it idx s? now fuel = some (i', s', e', t')) :
    0 ≤ i' ∧ i' ≤ (it.length : Int) - 2 := by
  have hlen2 : (2 : Int) ≤ (it.length : Int) := by exact_mod_cast hlen
  rw [advance_segment, if_neg (by omega)] at h
  exact advanceLoop_bound it hlen fuel _ _ _ i' s' e' t'
    (le_max_left 0 _) (max_le (by omega) (min_le_right _ _)) h

/-- Exit characterization lifted to `_advance_segment` (on itineraries with
at least 2 entries): the returned `travel_s` and `elapsed` are those of the
returned `(idx, segment_start)` at the normalized `now`, with
`elapsed < travel_s`, and the returned segment start carries the timezone
annotation of the normalized initial segment start. -/
lemma advance_segment_exit (it : List ItinEntry) (hlen : 2 ≤ it.length)
    (idx : Int) (s? : Option PyDatetime) (now : PyDatetime) (fuel : Nat)
    (i' : Int) (s' : PyDatetime) (e' : ℚ) (t' : Int)
    (h : advance_segment it idx s? now fuel = some (i', s', e', t')) :
    t' = travel_seconds (it.getD i'.toNat dfltEntry) ∧
    e' = pySub (normalizeTz (s?.getD now) now).2 s' ∧ e' < (t' : ℚ) ∧
    s'.tz = (normalizeTz (s?.getD now) now).1.tz := by
  rw [advance_segment, if_neg (by omega)] at h
  exact advanceLoop_exit it fuel _ _ _ i' s' e' t' h

/-- The two copies of the catch-up loop (`live_service.py` and `main.py`)
are the same function. -/
lemma mainAdvanceLoop_eq (it : List ItinEntry) :
    ∀ fuel idx (s n : PyDatetime),
      mainAdvanceLoop it fuel idx s n = advanceLoop it fuel idx s n := by
  intro fuel
  induction fuel with
  | zero => intro idx s n; rfl
  | succ fuel ih =>
    intro idx s n
    simp only [mainAdvanceLoop, advanceLoop]
    split
    · rfl
    · exact ih _ _ n

/-- Adding seconds to the subtrahend shifts a datetime difference. -/
lemma pySub_addSeconds (n s : PyDatetime) (q : ℚ) :
    pySub n (s.addSeconds q) = pySub n s - q := by
  simp only [pySub, PyDatetime.addSeconds, PyDatetime.abs]
  ring

/-- Termination of the catch-up loop when every effective travel time is at
least one second: fuel exceeding the initial elapsed time suffices. -/
lemma advanceLoop_term (it : List ItinEntry)
    (hpos : ∀ k : Nat, 1 ≤ travel_seconds (it.getD k dfltEntry)) :
    ∀ fuel : Nat, 1 ≤ fuel → ∀ idx (s n : PyDatetime),
      pySub n s < (fuel : ℚ) → (advanceLoop it fuel idx s n).isSome := by
  intro fuel
  induction fuel with
  | zero => intro h; exact absurd h (by omega)
  | succ fuel ih =>
    intro _ idx s n hlt
    simp only [advanceLoop]
    split
    · simp
    · rename_i hge
      push_neg at hge
      have h1 : (1 : ℚ) ≤ (travel_seconds (it.getD idx.toNat dfltEntry) : ℚ) := by
        exact_mod_cast hpos idx.toNat
      have he1 : (1 : ℚ) ≤ pySub n s := le_trans h1 hge
      have hcast : pySub n s < (fuel : ℚ) + 1 := by push_cast at hlt; linarith
      have hfuel : 1 ≤ fuel := by
        by_contra hf
        have : fuel = 0 := by omega
        subst this
        norm_num at hcast
        linarith
      apply ih hfuel
      rw [pySub_addSeconds]
      linarith

/-- Termination of `_advance_segment` when every effective travel time is at
least one second: some fuel always suffices. -/
lemma advance_segment_term (it : List ItinEntry)
    (hpos : ∀ k : Nat, 1 ≤ travel_seconds (it.getD k dfltEntry))
    (idx : Int) (s? : Option PyDatetime) (now : PyDatetime) :
    ∃ fuel, (advance_segment it idx s? now fuel).isSome := by
  by_cases hlen : it.length < 2
  · exact ⟨1, by rw [advance_segment, if_pos hlen]; rfl⟩
  · refine ⟨(⌈pySub (normalizeTz (s?.getD now) now).2
      (normalizeTz (s?.getD now) now).1⌉.toNat + 1), ?_⟩
    rw [advance_segment, if_neg hlen]
    apply advanceLoop_term it hpos _ (by omega)
    have h1 : pySub (normalizeTz (s?.getD now) now).2
        (normalizeTz (s?.getD now) now).1 ≤
        (⌈pySub (normalizeTz (s?.getD now) now).2
          (normalizeTz (s?.getD now) now).1⌉ : ℚ) := Int.le_ceil _
    have h2 : (⌈pySub (normalizeTz (s?.getD now) now).2
        (normalizeTz (s?.getD now) now).1⌉ : ℚ) ≤
        ((⌈pySub (normalizeTz (s?.getD now) now).2
          (normalizeTz (s?.getD now) now).1⌉.toNat : Int) : ℚ) := by
      exact_mod_cast Int.self_le_toNat _
    push_cast at h2 ⊢
    linarith

/-- Normalizing a second time around a segment start produced by a previous
normalized run changes nothing: the first component stays as given and the
second component is the same normalized `now` as in the first run. -/
lemma normalizeTz_second (s0 now s' : PyDatetime)
    (h : s'.tz = (normalizeTz s0 now).1.tz) :
    normalizeTz s' now = (s', (normalizeTz s0 now).2) := by
  cases hs0 : s0.tz <;> cases hnow : now.tz <;>
    simp only [normalizeTz, hs0, hnow, PyDatetime.replaceTz] at h ⊢ <;>
    simp only [normalizeTz, h, PyDatetime.replaceTz]

/-- The first component of the normalization is untouched whenever the
segment start is aware. -/
lemma normalizeTz_fst_of_isSome (s now : PyDatetime) (h : s.tz.isSome) :
    (normalizeTz s now).1 = s := by
  cases hs : s.tz <;> cases hnow : now.tz <;>
    simp_all [normalizeTz]

/-- The first component of the normalization is untouched whenever `now` is
naive. -/
lemma normalizeTz_fst_of_now_naive (s now : PyDatetime) (h : now.tz = none) :
    (normalizeTz s now).1 = s := by
  cases hs : s.tz <;> simp_all [normalizeTz]

/-- When `now` is aware, the normalized segment start is aware. -/
lemma normalizeTz_fst_tz_isSome (s now : PyDatetime) (h : now.tz.isSome) :
    ((normalizeTz s now).1.tz).isSome := by
  cases hs : s.tz <;> cases hnow : now.tz <;>
    simp_all [normalizeTz, PyDatetime.replaceTz]

/-- The checkpoint write logged by one vehicle simulation carries the index
returned by `_advance_segment`, hence stays in `[0, len - 2]`. -/
lemma simulate_one_write_bound (itn : List ItinEntry) (hlen : 2 ≤ itn.length)
    (coords : List (String × (ℚ × ℚ))) (meta : List (String × StopMeta))
    (amap : List (String × AssignInfo)) (lid : String) (now : PyDatetime)
    (fuel : Nat) (v : Vehicle) (p : VehiclePayload) (w : SimWrite)
    (h : simulate_one itn coords meta amap lid now fuel v = some (p, w)) :
    0 ≤ w.idx ∧ w.idx ≤ (itn.length : Int) - 2 := by
  simp only [simulate_one] at h
  cases hadv : advance_segment itn ((v.sim.getD ⟨none, none⟩).idx.getD 0)
      (some ((v.sim.getD ⟨none, none⟩).segment_start_ts.getD now)) now fuel with
  | none => rw [hadv] at h; simp at h
  | some res =>
    obtain ⟨ni, ns, el, tr⟩ := res
    rw [hadv] at h
    simp only [Option.some.injEq, Prod.mk.injEq] at h
    obtain ⟨-, rfl⟩ := h
    exact advance_segment_idx_bound itn hlen _ _ _ _ ni ns el tr hadv

/-- Every checkpoint write collected over a vehicle list keeps its index in
`[0, len - 2]`. -/
lemma simulate_all_writes_bound (itn : List ItinEntry) (hlen : 2 ≤ itn.length)
    (coords : List (String × (ℚ × ℚ))) (meta : List (String × StopMeta))
    (amap : List (String × AssignInfo)) (lid : String) (now : PyDatetime)
    (fuel : Nat) :
    ∀ (vs : List Vehicle) ps ws,
      simulate_all itn coords meta amap lid now fuel vs = some (ps, ws) →
      ∀ w ∈ ws, 0 ≤ w.idx ∧ w.idx ≤ (itn.length : Int) - 2 := by
  intro vs
  induction vs with
  | nil =>
    intro ps ws h
    simp only [simulate_all, Option.some.injEq, Prod.mk.injEq] at h
    obtain ⟨-, rfl⟩ := h
    intro w hw
    simp at hw
  | cons v vs ih =>
    intro ps ws h
    simp only [simulate_all] at h
    cases h1 : simulate_one itn coords meta amap lid now fuel v with
    | none => rw [h1] at h; simp at h
    | some pw =>
      obtain ⟨p, w1⟩ := pw
      rw [h1] at h
      cases h2 : simulate_all itn coords meta amap lid now fuel vs with
      | none => rw [h2] at h; simp at h
      | some psws =>
        obtain ⟨ps', ws'⟩ := psws
        rw [h2] at h
        simp only [Option.some.injEq, Prod.mk.injEq] at h
        obtain ⟨-, rfl⟩ := h
        intro w hw
        rcases List.mem_cons.mp hw with rfl | hw'
        · exact simulate_one_write_bound itn hlen coords meta amap lid now
            fuel v p w h1
        · exact ih ps' ws' h2 w hw'

/-- C4: for every itinerary with at least 2 entries and every input
`(idx, segment_start, now)`, the index returned by `_advance_segment` — and
therefore the `current_segment_index` persisted to the vehicle simulation
state on every checkpoint write of `calculate_positions` — lies in
`[0, len(itinerary) - 2]`, so that `index + 1` is also a valid index into
the itinerary. -/
theorem claim_C4_index_bound :
    (∀ (it : List ItinEntry) (idx : Int) (s? : Option PyDatetime)
        (now : PyDatetime) (fuel : Nat) (i' : Int) (s' : PyDatetime)
        (e' : ℚ) (t' : Int),
      2 ≤ it.length →
      advance_segment it idx s? now fuel = some (i', s', e', t') →
      0 ≤ i' ∧ i' ≤ (it.length : Int) - 2) ∧
    (∀ (itn : List ItinEntry) (coords : List (String × (ℚ × ℚ)))
        (meta : List (String × StopMeta)) (amap : List (String × AssignInfo))
        (db : List Vehicle) (lid : String) (now : PyDatetime) (fuel : Nat)
        (r : LiveResult),
      calculate_positions itn coords meta amap db lid now fuel =
        some (LiveOutcome.ok r) →
      ∀ w ∈ r.writes, 0 ≤ w.idx ∧ w.idx ≤ (itn.length : Int) - 2) := by
  constructor
  · intro it idx s? now fuel i' s' e' t' hlen h
    exact advance_segment_idx_bound it hlen idx s? now fuel i' s' e' t' h
  · intro itn coords meta amap db lid now fuel r h
    simp only [calculate_positions] at h
    by_cases hlen : itn.length < 2
    · rw [if_pos hlen] at h
      simp at h
    · rw [if_neg hlen] at h
      cases hsim : simulate_all itn coords meta amap lid now fuel
          (get_vehicles_by_ids db (List.map Prod.fst amap) lid) with
      | none => rw [hsim] at h; simp at h
      | some psws =>
        obtain ⟨ps, ws⟩ := psws
        rw [hsim] at h
        simp only [Option.some.injEq, LiveOutcome.ok.injEq] at h
        subst h
        exact simulate_all_writes_bound itn (by omega) coords meta amap lid
          now fuel _ ps ws hsim

/-- Witness for C4: a concrete run of `_advance_segment` on a two-entry
itinerary returns index 0, which lies in `[0, len - 2]`. -/
theorem claim_C4_witness :
    (0 : Int) ≤ 0 ∧
    (0 : Int) ≤ ((([⟨"a", some 300⟩, ⟨"b", some 300⟩] :
      List ItinEntry).length : Int) - 2) :=
  claim_C4_index_bound.1 [⟨"a", some 300⟩, ⟨"b", some 300⟩] 0
    (some ⟨0, none⟩) ⟨100, none⟩ 5 0 ⟨0, none⟩ 100 300 (by norm_num)
    (by norm_num [advance_segment, advanceLoop, normalizeTz, pySub,
      PyDatetime.abs, PyDatetime.addSeconds, travel_seconds, pyInt, dfltEntry])

/-- C6: `_advance_segment` is idempotent at a fixed instant — if a call at
`now` returns `(idx, start, elapsed, travel_s)` on an itinerary with at
least 2 entries, then feeding `(idx, start)` back in at the same `now`
returns exactly the same quadruple (for any positive fuel). -/
theorem claim_C6_idempotent (it : List ItinEntry) (idx : Int)
    (s? : Option PyDatetime) (now : PyDatetime) (fuel fuel2 : Nat)
    (i' : Int) (s' : PyDatetime) (e' : ℚ) (t' : Int)
    (hlen : 2 ≤ it.length) (hf2 : 1 ≤ fuel2)
    (h : advance_segment it idx s? now fuel = some (i', s', e', t')) :
    advance_segment it i' (some s') now fuel2 = some (i', s', e', t') := by
  have hlen2 : (2 : Int) ≤ (it.length : Int) := by exact_mod_cast hlen
  obtain ⟨hb0, hb2⟩ := advance_segment_idx_bound it hlen idx s? now fuel
    i' s' e' t' h
  obtain ⟨ht, he, hlt, htz⟩ := advance_segment_exit it hlen idx s? now fuel
    i' s' e' t' h
  have hn := normalizeTz_second (s?.getD now) now s' htz
  simp only [advance_segment, Option.getD_some]
  rw [if_neg (by omega), hn]
  have hclamp : max 0 (min i' ((it.length : Int) - 2)) = i' := by omega
  rw [hclamp]
  cases fuel2 with
  | zero => exact absurd hf2 (by omega)
  | succ k =>
    simp only [advanceLoop]
    rw [← ht, ← he, if_pos hlt]

/-- Witness for C6: replaying a concrete result of `_advance_segment` at
the same `now` reproduces it exactly. -/
theorem claim_C6_witness :
    advance_segment [⟨"a", some 300⟩, ⟨"b", some 300⟩] 0
      (some ⟨0, none⟩) ⟨100, none⟩ 1 = some (0, ⟨0, none⟩, 100, 300) :=
  claim_C6_idempotent [⟨"a", some 300⟩, ⟨"b", some 300⟩] 0
    (some ⟨0, none⟩) ⟨100, none⟩ 5 1 0 ⟨0, none⟩ 100 300 (by norm_num)
    (by norm_num)
    (by norm_num [advance_segment, advanceLoop, normalizeTz, pySub,
      PyDatetime.abs, PyDatetime.addSeconds, travel_seconds, pyInt, dfltEntry])

/-- C10: the two copies of `_advance_segment` —
`project/app/services/live_service.py` lines 13-43 and
`project/app/main.py` lines 1014-1041 — are extensionally equal: for every
itinerary, every integer index, every (optional) segment start, every `now`
and every fuel, both return the identical quadruple.  (The only textual
difference is main.py's `isinstance` guard around the normalization, which
is always true for datetime-typed arguments.) -/
theorem claim_C10_copies_equal (it : List ItinEntry) (idx : Int)
    (s? : Option PyDatetime) (now : PyDatetime) (fuel : Nat) :
    main_advance_segment it idx s? now fuel =
      advance_segment it idx s? now fuel := by
  have hnorm : mainNormalizeTz (s?.getD now) now = normalizeTz (s?.getD now) now := by
    cases h1 : (s?.getD now).tz <;> cases h2 : now.tz <;>
      simp [mainNormalizeTz, normalizeTz, h1, h2]
  simp only [main_advance_segment, advance_segment, hnorm,
    mainAdvanceLoop_eq]

/-- Counterexample to C5 as stated: with an itinerary entry whose
`avgStopSec` is negative (here -100, which `int()` keeps as -100), a later
`now` can hand back a strictly smaller `segment_start`.  First call at
`t1 = 0` returns `(idx=0, start=200)`; feeding `(0, 200)` back in at
`t2 = 150 > t1` returns `(idx=1, start=100)` — the persisted segment start
decreased. -/
theorem claim_C5_counterexample :
    advance_segment [⟨"a", some (-100)⟩, ⟨"b", some 300⟩, ⟨"c", some 300⟩] 0
      (some ⟨200, none⟩) ⟨0, none⟩ 10 = some (0, ⟨200, none⟩, -200, -100) ∧
    advance_segment [⟨"a", some (-100)⟩, ⟨"b", some 300⟩, ⟨"c", some 300⟩] 0
      (some ⟨200, none⟩) ⟨150, none⟩ 10 = some (1, ⟨100, none⟩, 50, 300) ∧
    ¬ ((⟨200, none⟩ : PyDatetime).abs ≤ (⟨100, none⟩ : PyDatetime).abs) ∧
    (⟨0, none⟩ : PyDatetime).abs < (⟨150, none⟩ : PyDatetime).abs := by
  refine ⟨?_, ?_, ?_, ?_⟩ <;>
    norm_num [advance_segment, advanceLoop, normalizeTz, pySub,
      PyDatetime.abs, PyDatetime.addSeconds, travel_seconds, pyInt, dfltEntry]

/-- C5 as amended: on an itinerary with at least 2 entries all of whose
effective travel times are nonnegative, and with `t1`, `t2` of matching
timezone-awareness, if a call at `t1` returns `(idx1, start1)` and a second
call on `(idx1, start1)` at `t2 > t1` returns `(idx2, start2)` with `w` wrap
events, then `start2 >= start1`, and `idx2 >= idx1` unless a wrap occurred
(`w = 0 → idx1 ≤ idx2`). -/
theorem claim_C5_monotone (it : List ItinEntry) (idx0 : Int)
    (s0? : Option PyDatetime) (t1 t2 : PyDatetime) (f1 f2 : Nat)
    (i1 i2 : Int) (s1 s2 : PyDatetime) (e1 e2 : ℚ) (tr1 tr2 : Int) (w : Nat)
    (hlen : 2 ≤ it.length)
    (hpos : ∀ e ∈ it, 0 ≤ travel_seconds e)
    (hAw : t1.tz.isSome = t2.tz.isSome)
    (_hlt : t1.abs < t2.abs)
    (h1 : advance_segment it idx0 s0? t1 f1 = some (i1, s1, e1, tr1))
    (h2 : advance_segmentW it i1 (some s1) t2 f2 =
      some ((i2, s2, e2, tr2), w)) :
    s1.abs ≤ s2.abs ∧ (w = 0 → i1 ≤ i2) := by
  have hlen2 : (2 : Int) ≤ (it.length : Int) := by exact_mod_cast hlen
  obtain ⟨hb0, hb2⟩ := advance_segment_idx_bound it hlen idx0 s0? t1 f1
    i1 s1 e1 tr1 h1
  obtain ⟨-, -, -, htz⟩ := advance_segment_exit it hlen idx0 s0? t1 f1
    i1 s1 e1 tr1 h1
  have hfst : (normalizeTz s1 t2).1 = s1 := by
    cases ht2 : t2.tz with
    | none => exact normalizeTz_fst_of_now_naive s1 t2 ht2
    | some u =>
      apply normalizeTz_fst_of_isSome
      rw [htz]
      apply normalizeTz_fst_tz_isSome
      rw [hAw, ht2]
      rfl
  simp only [advance_segmentW, Option.getD_some] at h2
  rw [if_neg (by omega), hfst] at h2
  have hclamp : max 0 (min i1 ((it.length : Int) - 2)) = i1 := by omega
  rw [hclamp] at h2
  constructor
  · have hplain : advanceLoop it f2 i1 s1 (normalizeTz s1 t2).2 =
        some (i2, s2, e2, tr2) := by
      rw [← advanceLoopW_fst, h2]
      rfl
    exact advanceLoop_start_mono it hpos f2 i1 s1 _ i2 s2 e2 tr2 hplain
  · intro hw
    subst hw
    exact advanceLoopW_nowrap_mono it f2 i1 s1 _ (i2, s2, e2, tr2) h2

/-- Witness for C5 (amended): a concrete pair of calls on a two-entry
itinerary with nonnegative travel times. -/
theorem claim_C5_witness :
    (⟨0, none⟩ : PyDatetime).abs ≤ (⟨0, none⟩ : PyDatetime).abs ∧
    ((0 : Nat) = 0 → (0 : Int) ≤ 0) :=
  claim_C5_monotone [⟨"a", some 300⟩, ⟨"b", some 300⟩] 0
    (some ⟨0, none⟩) ⟨0, none⟩ ⟨100, none⟩ 5 5 0 0
    ⟨0, none⟩ ⟨0, none⟩ 0 100 300 300 0
    (by norm_num)
    (by
      intro e he
      simp only [List.mem_cons, List.not_mem_nil, or_false] at he
      rcases he with rfl | rfl <;> norm_num [travel_seconds, pyInt])
    rfl
    (by norm_num [PyDatetime.abs])
    (by norm_num [advance_segment, advanceLoop, normalizeTz, pySub,
      PyDatetime.abs, PyDatetime.addSeconds, travel_seconds, pyInt, dfltEntry])
    (by norm_num [advance_segmentW, advanceLoopW, normalizeTz, pySub,
      PyDatetime.abs, PyDatetime.addSeconds, travel_seconds, pyInt, dfltEntry])


/-- Under the C7 precondition the effective travel time of an entry is at
least one second (absent and zero fall back to 300; an integer ≥ 1 is kept
by `int()`). -/
lemma travel_seconds_ge_one_of_good (e : ItinEntry) (h : good_avg e = true) :
    1 ≤ travel_seconds e := by
  unfold good_avg at h
  unfold travel_seconds
  cases hq : e.avgStopSec with
  | none => norm_num
  | some q =>
    rw [hq] at h
    simp only [Bool.or_eq_true, beq_iff_eq, Bool.and_eq_true,
      decide_eq_true_eq] at h
    rcases h with h0 | ⟨hden, hnum⟩
    · norm_num [h0]
    · have hq0 : q ≠ 0 := by
        intro h'
        rw [h'] at hnum
        norm_num at hnum
      show 1 ≤ if q = 0 then 300 else pyInt q
      rw [if_neg hq0]
      unfold pyInt
      rw [hden]
      simpa [Int.tdiv_one] using hnum
/-- Under the C7 precondition on all entries, every index (in range or not)
yields an effective travel time of at least one second (the out-of-range
default entry has an absent value, hence 300). -/
lemma travel_getD_ge_one (it : List ItinEntry)
    (h : ∀ e ∈ it, good_avg e = true) (k : Nat) :
    1 ≤ travel_seconds (it.getD k dfltEntry) := by
  by_cases hk : k < it.length
  · exact travel_seconds_ge_one_of_good _
      (h _ (List.getD_eq_getElem it dfltEntry hk ▸ it.getElem_mem hk))
  · rw [List.getD_eq_default it dfltEntry (le_of_not_lt hk)]
    norm_num [dfltEntry, travel_seconds]

/-- On the two-entry itinerary whose `avgStopSec` values are 1/2 (truncated
to 0 by `int()`), the catch-up loop started at index 0 with equal segment
start and `now` never returns: travel is 0, elapsed stays 0, and the index
wraps back to 0 forever. -/
lemma advanceLoop_half_none :
    ∀ fuel : Nat,
      advanceLoop [⟨"a", some (1/2)⟩, ⟨"b", some (1/2)⟩] fuel 0
        ⟨0, none⟩ ⟨0, none⟩ = none := by
  intro fuel
  induction fuel with
  | zero => rfl
  | succ f ih =>
    have htrav : travel_seconds
        (([⟨"a", some (1/2)⟩, ⟨"b", some (1/2)⟩] : List ItinEntry).getD
          ((0 : Int).toNat) dfltEntry) = 0 := by
      norm_num [travel_seconds, pyInt, List.getD,
        show Int.tdiv 1 2 = 0 from by decide]
    simp only [advanceLoop, htrav]
    norm_num [pySub, PyDatetime.abs, PyDatetime.addSeconds]
    convert ih using 2

/-- C7: the catch-up loop of `_advance_segment` terminates (some fuel makes
it return) for every itinerary with at least 2 entries whose `avgStopSec`
values are all absent, zero, or integers ≥ 1, for every index and all
segment-start/now datetimes; and the precondition is required — on an
itinerary whose entries truncate to 0 under `int()` (value 1/2) there is an
input on which the loop never returns, for any amount of fuel. -/
theorem claim_C7_termination :
    (∀ (it : List ItinEntry) (idx : Int) (s? : Option PyDatetime)
        (now : PyDatetime),
      2 ≤ it.length → (∀ e ∈ it, good_avg e = true) →
      ∃ fuel, (advance_segment it idx s? now fuel).isSome) ∧
    (∀ fuel : Nat,
      advance_segment [⟨"a", some (1/2)⟩, ⟨"b", some (1/2)⟩] 0
        (some ⟨0, none⟩) ⟨0, none⟩ fuel = none) := by
  constructor
  · intro it idx s? now _hlen hgood
    exact advance_segment_term it (travel_getD_ge_one it hgood) idx s? now
  · intro fuel
    have hloop := advanceLoop_half_none fuel
    simp only [advance_segment, Option.getD_some]
    rw [if_neg (by norm_num)]
    have hnorm : normalizeTz (⟨0, none⟩ : PyDatetime) ⟨0, none⟩ =
        (⟨0, none⟩, ⟨0, none⟩) := rfl
    rw [hnorm]
    have hclamp : max 0 (min (0 : Int)
        ((([⟨"a", some (1/2)⟩, ⟨"b", some (1/2)⟩] :
          List ItinEntry).length : Int) - 2)) = 0 := by
      norm_num
    rw [hclamp]
    exact hloop

/-- Witness for C7: on a concrete two-entry itinerary with absent
`avgStopSec` values the advancement terminates with some fuel. -/
theorem claim_C7_witness :
    ∃ fuel, (advance_segment [⟨"a", none⟩, ⟨"b", none⟩] 0 none
      ⟨0, none⟩ fuel).isSome :=
  claim_C7_termination.1 [⟨"a", none⟩, ⟨"b", none⟩] 0 none ⟨0, none⟩
    (by norm_num)
    (by
      intro e he
      simp only [List.mem_cons, List.not_mem_nil, or_false] at he
      rcases he with rfl | rfl <;> rfl)

/-- Counterexample to C2 as stated: on an itinerary of two 300-second
segments (three stops), a checkpoint `(idx=0, start=T)` advanced at
`now = T + 650` returns index 0 — not index 1 — because after consuming the
two 300-second windows the loop wraps the index back to 0 (the route is
simulated as a continuous loop); the elapsed value is 50. -/
theorem claim_C2_counterexample :
    (advance_segment
      [⟨"s1", some 300⟩, ⟨"s2", some 300⟩, ⟨"s3", some 300⟩] 0
      (some ⟨0, none⟩) ⟨650, none⟩ 10).map (fun r => (r.1, r.2.2.1)) =
      some (0, 50) ∧
    ¬ (advance_segment
      [⟨"s1", some 300⟩, ⟨"s2", some 300⟩, ⟨"s3", some 300⟩] 0
      (some ⟨0, none⟩) ⟨650, none⟩ 10).map (fun r => (r.1, r.2.2.1)) =
      some (1, 50) := by
  constructor <;>
    norm_num [advance_segment, advanceLoop, normalizeTz, pySub,
      PyDatetime.abs, PyDatetime.addSeconds, travel_seconds, pyInt, dfltEntry]

/-- C2 as amended: on the two-segment 300-second itinerary with checkpoint
`(idx=0, start=T)` and `now = T + 650`, `_advance_segment` returns
`idx = 0` (wrapped back to the route start), `segment_start = T + 600`,
`elapsed = 50` and `travel_s = 300`. -/
theorem claim_C2_catchup :
    advance_segment
      [⟨"s1", some 300⟩, ⟨"s2", some 300⟩, ⟨"s3", some 300⟩] 0
      (some ⟨0, none⟩) ⟨650, none⟩ 10 =
      some (0, ⟨600, none⟩, 50, 300) := by
  norm_num [advance_segment, advanceLoop, normalizeTz, pySub,
    PyDatetime.abs, PyDatetime.addSeconds, travel_seconds, pyInt, dfltEntry]

/-- C8: the progress fraction computed for every simulated vehicle lies in
`[0, 1]` (even when `elapsed` exceeds `travel_s`), and it is 0 whenever
`travel_s` is 0 or either endpoint stop has no coordinates. -/
theorem claim_C8_progress_bounds :
    ∀ (fromC toC : Option (ℚ × ℚ)) (elapsed : ℚ) (travel_s : Int),
      (0 ≤ (compute_progress fromC toC elapsed travel_s).1 ∧
        (compute_progress fromC toC elapsed travel_s).1 ≤ 1) ∧
      ((travel_s = 0 ∨ fromC = none ∨ toC = none) →
        (compute_progress fromC toC elapsed travel_s).1 = 0) := by
  intro fromC toC elapsed travel_s
  constructor
  · cases fromC with
    | none => simp [compute_progress]
    | some a =>
      cases toC with
      | none => simp [compute_progress]
      | some b =>
        simp only [compute_progress]
        split
        · refine ⟨le_max_left 0 _, max_le (by norm_num) ?_⟩
          exact (min_le_left 1 _)
        · norm_num
  · intro h
    rcases h with h | h | h
    · subst h
      cases fromC <;> cases toC <;> simp [compute_progress]
    · subst h
      simp [compute_progress]
    · subst h
      cases fromC <;> simp [compute_progress]

/-- Witness for C8: at `travel_s = 0` with missing coordinates the progress
is 0, inside `[0, 1]`. -/
theorem claim_C8_witness :
    (0 ≤ (compute_progress none none 5 0).1 ∧
      (compute_progress none none 5 0).1 ≤ 1) ∧
    (compute_progress none none 5 0).1 = 0 :=
  ⟨(claim_C8_progress_bounds none none 5 0).1,
    (claim_C8_progress_bounds none none 5 0).2 (Or.inl rfl)⟩

/-- Evaluation of a segment built from an indexed position of the path. -/
lemma range_map_getD {α : Type} (n : Nat) (f : Nat → α) (i : Nat) (d : α)
    (h : i < n) : ((List.range n).map f).getD i d = f i := by
  rw [List.getD_eq_getElem?_getD, List.getElem?_map, List.getElem?_range h]
  rfl

/-- Counterexample to C3 as stated about `find_best_route`
(`routing_service.py`): the segment built for a TRANSFER edge with nonzero
walk time (120 s) carries the literal label `"WALK"`, not
`"WALK TO TRANSFER"`. -/
theorem claim_C3_counterexample :
    ((find_best_route_segments [dfltNode, dfltNode]
      [⟨"TRANSFER", none, none, some 120⟩]).getD 0 dfltSegment).line_id =
      some "WALK" ∧
    ¬ ((find_best_route_segments [dfltNode, dfltNode]
      [⟨"TRANSFER", none, none, some 120⟩]).getD 0 dfltSegment).line_id =
      some "WALK TO TRANSFER" := by
  constructor <;> decide

/-- C3 as amended: in `get_route` (`main.py`) the segment built for every
TRANSFER edge with nonzero walk time has the literal display label
`"WALK TO TRANSFER"`; in `find_best_route` (`routing_service.py`) the
segment built for every TRANSFER edge has the literal label `"WALK"`
regardless of walk time. -/
theorem claim_C3_transfer_label :
    (∀ (nodes : List PathNode) (rels : List PathRel) (i : Nat),
      i < rels.length →
      (rels.getD i dfltRel).rel_type = "TRANSFER" →
      (rels.getD i dfltRel).walk_s.getD 0 ≠ 0 →
      ((get_route_segments nodes rels).getD i dfltSegment).line_id =
        some "WALK TO TRANSFER") ∧
    (∀ (nodes : List PathNode) (rels : List PathRel) (i : Nat),
      i < rels.length →
      (rels.getD i dfltRel).rel_type = "TRANSFER" →
      ((find_best_route_segments nodes rels).getD i dfltSegment).line_id =
        some "WALK") := by
  constructor
  · intro nodes rels i hi ht hw
    rw [get_route_segments, range_map_getD _ _ i dfltSegment hi]
    simp only [main_build_segment]
    rw [if_pos ⟨hw, ht⟩]
  · intro nodes rels i hi ht
    rw [find_best_route_segments, range_map_getD _ _ i dfltSegment hi]
    simp only [rs_build_segment]
    rw [if_pos ht]

/-- Witness for C3 (amended): a concrete one-edge path with a TRANSFER of
120 s walk time gets the `"WALK TO TRANSFER"` label in the `main.py`
builder. -/
theorem claim_C3_witness :
    ((get_route_segments [dfltNode, dfltNode]
      [⟨"TRANSFER", none, some 0, some 120⟩]).getD 0 dfltSegment).line_id =
      some "WALK TO TRANSFER" :=
  claim_C3_transfer_label.1 [dfltNode, dfltNode]
    [⟨"TRANSFER", none, some 0, some 120⟩] 0 (by decide) (by decide)
    (by decide)


/-- C1 evaluated at its failing input: a line `"L1"` with a valid two-stop
itinerary, an empty active-assignment map, and one vehicle document on the
line.  `calculate_positions` does set the note, but — because
`get_vehicles_by_ids` drops the `_id` filter when the id list is empty — it
returns one (inactive) vehicle snapshot and performs one checkpoint write,
contradicting the claimed empty vehicle list and absence of writes. -/
theorem claim_C1_empty_active_set :
    live_summary (calculate_positions
      [⟨"s1", some 300⟩, ⟨"s2", some 300⟩]
      [("s1", (0, 0)), ("s2", (1, 1))] [] []
      [⟨"v1", "L1", none, none, none, none⟩] "L1" ⟨0, some 0⟩ 5) =
      some (1, 1, true) := by
  norm_num [live_summary, calculate_positions, get_vehicles_by_ids,
    simulate_all, simulate_one, advance_segment, advanceLoop, normalizeTz,
    pySub, PyDatetime.abs, PyDatetime.addSeconds, travel_seconds, pyInt,
    dfltEntry, compute_progress, interpolate, List.lookup]

/-- Squared sine is insensitive to the orientation of a half-difference. -/
lemma sin_sq_half_sub_comm (x y : ℝ) :
    Real.sin ((x - y) / 2) ^ 2 = Real.sin ((y - x) / 2) ^ 2 := by
  rw [show (x - y) / 2 = -((y - x) / 2) by ring, Real.sin_neg]
  ring

/-- C9: the great-circle distance function is symmetric in its two
coordinates, returns 0 on equal coordinates, returns 0.0 whenever any of
the four components is missing, and on (0,0)-(0,1) returns ≈ 111.19 km
within 0.1% (Haversine with Earth radius 6371 km). -/
theorem claim_C9_distance :
    (∀ a b c d : Option ℝ,
      calculate_distance_km a b c d = calculate_distance_km c d a b) ∧
    (∀ lat lon : Option ℝ, calculate_distance_km lat lon lat lon = 0) ∧
    ((∀ b c d : Option ℝ, calculate_distance_km none b c d = 0) ∧
      (∀ a c d : Option ℝ, calculate_distance_km a none c d = 0) ∧
      (∀ a b d : Option ℝ, calculate_distance_km a b none d = 0) ∧
      (∀ a b c : Option ℝ, calculate_distance_km a b c none = 0)) ∧
    |calculate_distance_km (some 0) (some 0) (some 0) (some 1) - 111.19| ≤
      0.001 * 111.19 := by
  refine ⟨?_, ?_, ⟨?_, ?_, ?_, ?_⟩, ?_⟩
  · intro a b c d
    cases a <;> cases b <;> cases c <;> cases d <;>
      simp only [calculate_distance_km]
    rename_i a b c d
    congr 3
    rw [sin_sq_half_sub_comm (c * (Real.pi / 180)) (a * (Real.pi / 180)),
      sin_sq_half_sub_comm (d * (Real.pi / 180)) (b * (Real.pi / 180))]
    ring
  · intro lat lon
    cases lat <;> cases lon <;>
      simp [calculate_distance_km, Real.arcsin_zero]
  · intro b c d; simp [calculate_distance_km]
  · intro a c d
    cases a <;> simp [calculate_distance_km]
  · intro a b d
    cases a <;> cases b <;> simp [calculate_distance_km]
  · intro a b c
    cases a <;> cases b <;> cases c <;> simp [calculate_distance_km]
  · have hpi : (0 : ℝ) < Real.pi := Real.pi_pos
    have h1 := Real.pi_gt_d6
    have h2 := Real.pi_lt_d6
    have hx0 : (0 : ℝ) ≤ Real.pi / 180 / 2 := by positivity
    have hxpi : Real.pi / 180 / 2 ≤ Real.pi := by linarith
    have hsin0 : 0 ≤ Real.sin (Real.pi / 180 / 2) :=
      Real.sin_nonneg_of_nonneg_of_le_pi hx0 hxpi
    have hval : calculate_distance_km (some 0) (some 0) (some 0) (some 1) =
        6371 * 2 * (Real.pi / 180 / 2) := by
      simp only [calculate_distance_km]
      simp only [zero_mul, one_mul, sub_zero, zero_div, Real.sin_zero,
        Real.cos_zero]
      rw [show (0 : ℝ) ^ 2 + Real.sin (Real.pi / 180 / 2) ^ 2 =
        Real.sin (Real.pi / 180 / 2) ^ 2 by ring]
      rw [Real.sqrt_sq hsin0, Real.arcsin_sin (by linarith) (by linarith)]
    rw [hval, abs_le]
    constructor <;> linarith
